import Mathlib

/-
Verification of the Authentication & Session Core of the file-processing
backend (Cognito-based auth service).

The development shallowly embeds the relevant JavaScript sources:
  - src/utils/cognito-config.js  (ClientConfig, OIDC discovery singleton)
  - src/utils/auth-service.js    (Identity Provider Adapter)
  - the bearer-token middleware and the express app callback route
    (authenticateToken / optionalAuth / GET /callback)

JavaScript conventions used throughout the embedding:
  - a possibly-absent string value (undefined / null) is `Option String`;
  - JS truthiness on such a value: undefined, null and the empty string
    are falsy, every other string is truthy;
  - `a || b` on strings/messages is `jsOrDefault`;
  - an async operation against the network is abstracted by an oracle
    argument `Except String payload` (or a function producing one): the
    `.error` case is the underlying call throwing with that message, the
    `.ok` case is the call resolving;
  - Node's crypto.createHmac('sha256', ...)/digest('base64') is embedded
    by a full executable implementation of SHA-256, HMAC and base64 below.
-/

/-! ### 32-bit word arithmetic on Nat -/

def w32 (n : Nat) : Nat := n % 4294967296

def rotr32 (n x : Nat) : Nat := w32 ((x >>> n) ||| (x <<< (32 - n)))

def ch32 (e f g : Nat) : Nat := (e &&& f) ^^^ ((4294967295 ^^^ w32 e) &&& g)

def maj32 (a b c : Nat) : Nat := (a &&& b) ^^^ (a &&& c) ^^^ (b &&& c)

def bigSigma0 (x : Nat) : Nat := (rotr32 2 x) ^^^ (rotr32 13 x) ^^^ (rotr32 22 x)

def bigSigma1 (x : Nat) : Nat := (rotr32 6 x) ^^^ (rotr32 11 x) ^^^ (rotr32 25 x)

def smallSigma0 (x : Nat) : Nat := (rotr32 7 x) ^^^ (rotr32 18 x) ^^^ (x >>> 3)

def smallSigma1 (x : Nat) : Nat := (rotr32 17 x) ^^^ (rotr32 19 x) ^^^ (x >>> 10)

/-! ### SHA-256 (FIPS 180-4), bytes as Nat < 256 -/

def sha256K : List Nat :=
  [1116352408, 1899447441, 3049323471, 3921009573, 961987163, 1508970993,
   2453635748, 2870763221, 3624381080, 310598401, 607225278, 1426881987,
   1925078388, 2162078206, 2614888103, 3248222580, 3835390401, 4022224774,
   264347078, 604807628, 770255983, 1249150122, 1555081692, 1996064986,
   2554220882, 2821834349, 2952996808, 3210313671, 3336571891, 3584528711,
   113926993, 338241895, 666307205, 773529912, 1294757372, 1396182291,
   1695183700, 1986661051, 2177026350, 2456956037, 2730485921, 2820302411,
   3259730800, 3345764771, 3516065817, 3600352804, 4094571909, 275423344,
   430227734, 506948616, 659060556, 883997877, 958139571, 1322822218,
   1537002063, 1747873779, 1955562222, 2024104815, 2227730452, 2361852424,
   2428436474, 2756734187, 3204031479, 3329325298]

structure Hash8 where
  a : Nat
  b : Nat
  c : Nat
  d : Nat
  e : Nat
  f : Nat
  g : Nat
  h : Nat
deriving Repr, DecidableEq

def sha256Init : Hash8 :=
  ⟨1779033703, 3144134277, 1013904242, 2773480762,
   1359893119, 2600822924, 528734635, 1541459225⟩

def schedule64 (block : List Nat) : List Nat :=
  (List.range 48).foldl
    (fun w _ =>
      let n := w.length
      let x := w32 (smallSigma1 (w.getD (n - 2) 0) + w.getD (n - 7) 0 +
                    smallSigma0 (w.getD (n - 15) 0) + w.getD (n - 16) 0)
      w ++ [x]) block

def sha256Round (s : Hash8) (kw : Nat × Nat) : Hash8 :=
  let t1 := w32 (s.h + bigSigma1 s.e + ch32 s.e s.f s.g + kw.1 + kw.2)
  let t2 := w32 (bigSigma0 s.a + maj32 s.a s.b s.c)
  ⟨w32 (t1 + t2), s.a, s.b, s.c, w32 (s.d + t1), s.e, s.f, s.g⟩

def sha256Compress (s : Hash8) (block : List Nat) : Hash8 :=
  let t := (sha256K.zip (schedule64 block)).foldl sha256Round s
  ⟨w32 (s.a + t.a), w32 (s.b + t.b), w32 (s.c + t.c), w32 (s.d + t.d),
   w32 (s.e + t.e), w32 (s.f + t.f), w32 (s.g + t.g), w32 (s.h + t.h)⟩

def bytes4 (w : Nat) : List Nat :=
  [w / 16777216 % 256, w / 65536 % 256, w / 256 % 256, w % 256]

def wordsToBytes : List Nat → List Nat
  | [] => []
  | w :: ws => bytes4 w ++ wordsToBytes ws

def bytesToWords : List Nat → List Nat
  | b0 :: b1 :: b2 :: b3 :: rest => (b0 * 16777216 + b1 * 65536 + b2 * 256 + b3) :: bytesToWords rest
  | _ => []

def bytes8 (n : Nat) : List Nat := bytes4 (n / 4294967296) ++ bytes4 n

def sha256Pad (msg : List Nat) : List Nat :=
  msg ++ [128] ++ List.replicate ((119 - msg.length % 64) % 64) 0 ++ bytes8 (8 * msg.length)

def chunk16 : Nat → List Nat → List (List Nat)
  | 0, _ => []
  | _, [] => []
  | fuel + 1, l => l.take 16 :: chunk16 fuel (l.drop 16)

def sha256Words (msg : List Nat) : List Nat :=
  let ws := bytesToWords (sha256Pad msg)
  let s := (chunk16 ws.length ws).foldl sha256Compress sha256Init
  [s.a, s.b, s.c, s.d, s.e, s.f, s.g, s.h]

def sha256 (msg : List Nat) : List Nat := wordsToBytes (sha256Words msg)

/-! ### HMAC-SHA256 (RFC 2104) -/

def hmacKeyBlock (key : List Nat) : List Nat :=
  let k := if key.length > 64 then sha256 key else key
  k ++ List.replicate (64 - k.length) 0

def hmacSha256 (key msg : List Nat) : List Nat :=
  let kb := hmacKeyBlock key
  sha256 (kb.map (fun b => b ^^^ 92) ++ sha256 (kb.map (fun b => b ^^^ 54) ++ msg))

/-! ### Base64 encoding (RFC 4648) -/

def b64Alphabet : List Char :=
  "ABCDEFGHIJKLMNOPQRSTUVWXYZabcdefghijklmnopqrstuvwxyz0123456789+/".toList

def b64Char (n : Nat) : Char := b64Alphabet.getD n 'A'

def b64Chunks : List Nat → List Char
  | [] => []
  | [b0] => [b64Char (b0 / 4), b64Char (b0 % 4 * 16), '=', '=']
  | [b0, b1] => [b64Char (b0 / 4), b64Char (b0 % 4 * 16 + b1 / 16), b64Char (b1 % 16 * 4), '=']
  | b0 :: b1 :: b2 :: rest =>
      b64Char (b0 / 4) :: b64Char (b0 % 4 * 16 + b1 / 16) ::
      b64Char (b1 % 16 * 4 + b2 / 64) :: b64Char (b2 % 64) :: b64Chunks rest

def base64Encode (bs : List Nat) : String := String.mk (b64Chunks bs)

/-! ### UTF-8 bytes of a string (Node Buffer.from(s, 'utf8')) -/

def utf8Bytes (c : Char) : List Nat :=
  let n := c.toNat
  if n < 128 then [n]
  else if n < 2048 then [192 + n / 64, 128 + n % 64]
  else if n < 65536 then [224 + n / 4096, 128 + n / 64 % 64, 128 + n % 64]
  else [240 + n / 262144, 128 + n / 4096 % 64, 128 + n / 64 % 64, 128 + n % 64]

def strBytes (s : String) : List Nat := s.data.foldr (fun c acc => utf8Bytes c ++ acc) []

/-! ### JavaScript value conventions -/

/-- JS truthiness of a possibly-absent string: undefined/null and the
empty string are falsy. -/
def jsTruthy : Option String → Bool
  | none => false
  | some s => s != ""

/-- JS `m || d` for an error-message string: the empty string stands for
an absent message. -/
def jsOrDefault (m d : String) : String := if m = "" then d else m

/-- JS `v || d` where `v` is a possibly-absent string field. -/
def jsOrOpt (v : Option String) (d : String) : String :=
  match v with
  | some s => if s = "" then d else s
  | none => d

/-- Models `if (x) params.field = x` on an optional string: the field is
present exactly when the value is truthy. -/
def addIfTruthy (v : Option String) : Option String :=
  match v with
  | some s => if s = "" then none else some s
  | none => none

/-! ### ClientConfig (src/utils/cognito-config.js, cognitoConfig) -/

structure ClientConfig where
  UserPoolId : String
  ClientId : String
  ClientSecret : Option String
  Region : String
  IssuerUrl : String
  RedirectUri : String
  ResponseTypes : List String
deriving Repr, DecidableEq

/-! ### Secret Hash Calculator (src/utils/auth-service.js lines 10-19)

```js
calculateSecretHash(username) {
  if (!cognitoConfig.ClientSecret) { return null; }
  const message = username + cognitoConfig.ClientId;
  const hmac = crypto.createHmac('sha256', cognitoConfig.ClientSecret);
  hmac.update(message);
  return hmac.digest('base64');
}
```
-/

def calculateSecretHash (cfg : ClientConfig) (username : String) : Option String :=
  match cfg.ClientSecret with
  | none => none
  | some sec =>
      if sec = "" then none
      else some (base64Encode (hmacSha256 (strBytes sec) (strBytes (username ++ cfg.ClientId))))

/-! ### Identity Provider Adapter (src/utils/auth-service.js)

Each adapter operation is embedded as a total function of its inputs and
an oracle for the underlying Cognito SDK call.  The oracle's `.error m`
case models the SDK promise rejecting with an error whose `.message` is
`m` (the empty string models an absent message); `.ok` models it
resolving.  Each JS method wraps its whole body in try/catch, which the
embedding reflects by pattern matching on the oracle outcome: totality of
the Lean function is the no-uncaught-exception property. -/

structure SignUpParams where
  ClientId : String
  Username : String
  Password : String
  UserAttributes : List (String × String)
  SecretHash : Option String
deriving Repr, DecidableEq

def signUpParams (cfg : ClientConfig) (username email password : String) : SignUpParams :=
  { ClientId := cfg.ClientId
    Username := username
    Password := password
    UserAttributes := [("email", email), ("preferred_username", username)]
    SecretHash := addIfTruthy (calculateSecretHash cfg username) }

structure SignUpResponse where
  UserSub : String
  CodeDeliveryDetails : String
deriving Repr, DecidableEq

structure SignUpResult where
  success : Bool
  userSub : Option String
  codeDeliveryDetails : Option String
  error : Option String
deriving Repr, DecidableEq

def signUp (cfg : ClientConfig) (username email password : String)
    (cognitoSignUp : SignUpParams → Except String SignUpResponse) : SignUpResult :=
  match cognitoSignUp (signUpParams cfg username email password) with
  | .ok r =>
      { success := true, userSub := some r.UserSub,
        codeDeliveryDetails := some r.CodeDeliveryDetails, error := none }
  | .error e =>
      { success := false, userSub := none, codeDeliveryDetails := none,
        error := some (jsOrDefault e "Sign up failed") }

structure ConfirmSignUpParams where
  ClientId : String
  Username : String
  ConfirmationCode : String
  SecretHash : Option String
deriving Repr, DecidableEq

def confirmSignUpParams (cfg : ClientConfig) (username code : String) : ConfirmSignUpParams :=
  { ClientId := cfg.ClientId
    Username := username
    ConfirmationCode := code
    SecretHash := addIfTruthy (calculateSecretHash cfg username) }

structure SimpleResult where
  success : Bool
  message : Option String
  error : Option String
deriving Repr, DecidableEq

def confirmSignUp (cfg : ClientConfig) (username code : String)
    (cognitoConfirm : ConfirmSignUpParams → Except String Unit) : SimpleResult :=
  match cognitoConfirm (confirmSignUpParams cfg username code) with
  | .ok _ => { success := true, message := some "Email verified successfully", error := none }
  | .error e =>
      { success := false, message := none,
        error := some (jsOrDefault e "Email verification failed") }

structure ResendCodeParams where
  ClientId : String
  Username : String
  SecretHash : Option String
deriving Repr, DecidableEq

def resendConfirmationCodeParams (cfg : ClientConfig) (username : String) : ResendCodeParams :=
  { ClientId := cfg.ClientId
    Username := username
    SecretHash := addIfTruthy (calculateSecretHash cfg username) }

structure ResendCodeResult where
  success : Bool
  codeDeliveryDetails : Option String
  error : Option String
deriving Repr, DecidableEq

def resendConfirmationCode (cfg : ClientConfig) (username : String)
    (cognitoResend : ResendCodeParams → Except String String) : ResendCodeResult :=
  match cognitoResend (resendConfirmationCodeParams cfg username) with
  | .ok details => { success := true, codeDeliveryDetails := some details, error := none }
  | .error e =>
      { success := false, codeDeliveryDetails := none,
        error := some (jsOrDefault e "Failed to resend verification code") }

/-- The `AuthParameters` map built for `USER_PASSWORD_AUTH`. -/
structure UserPasswordAuthParameters where
  USERNAME : String
  PASSWORD : String
  SECRET_HASH : Option String
deriving Repr, DecidableEq

structure SignInParams where
  AuthFlow : String
  ClientId : String
  AuthParameters : UserPasswordAuthParameters
deriving Repr, DecidableEq

def signInParams (cfg : ClientConfig) (username password : String) : SignInParams :=
  { AuthFlow := "USER_PASSWORD_AUTH"
    ClientId := cfg.ClientId
    AuthParameters :=
      { USERNAME := username
        PASSWORD := password
        SECRET_HASH := addIfTruthy (calculateSecretHash cfg username) } }

structure AuthenticationResult where
  AccessToken : String
  IdToken : String
  RefreshToken : String
  ExpiresIn : Nat
deriving Repr, DecidableEq

structure InitiateAuthResponse where
  AuthenticationResult : Option AuthenticationResult
deriving Repr, DecidableEq

structure SignInResult where
  success : Bool
  accessToken : Option String
  idToken : Option String
  refreshToken : Option String
  expiresIn : Option Nat
  error : Option String
deriving Repr, DecidableEq

def signIn (cfg : ClientConfig) (username password : String)
    (initiateAuth : SignInParams → Except String InitiateAuthResponse) : SignInResult :=
  match initiateAuth (signInParams cfg username password) with
  | .ok r =>
      match r.AuthenticationResult with
      | some ar =>
          { success := true, accessToken := some ar.AccessToken, idToken := some ar.IdToken,
            refreshToken := some ar.RefreshToken, expiresIn := some ar.ExpiresIn, error := none }
      | none =>
          { success := false, accessToken := none, idToken := none, refreshToken := none,
            expiresIn := none, error := some "Authentication failed" }
  | .error e =>
      { success := false, accessToken := none, idToken := none, refreshToken := none,
        expiresIn := none, error := some (jsOrDefault e "Sign in failed") }

def signOut (accessToken : String)
    (globalSignOut : String → Except String Unit) : SimpleResult :=
  match globalSignOut accessToken with
  | .ok _ => { success := true, message := some "Signed out successfully", error := none }
  | .error e =>
      { success := false, message := none, error := some (jsOrDefault e "Sign out failed") }

/-- The response of Cognito's getUser: a username and an attribute list. -/
structure CognitoUser where
  Username : String
  UserAttributes : List (String × String)
deriving Repr, DecidableEq

structure UserInfoResult where
  success : Bool
  user : Option (List (String × String))
  error : Option String
deriving Repr, DecidableEq

/-- getUserInfo flattens the attribute array into a name-to-value object;
the JS forEach assignment is modelled by the association list itself
(later entries overwrite on lookup order is not relevant to the claims). -/
def getUserInfo (accessToken : String)
    (getUser : String → Except String CognitoUser) : UserInfoResult :=
  match getUser accessToken with
  | .ok r => { success := true, user := some r.UserAttributes, error := none }
  | .error e =>
      { success := false, user := none,
        error := some (jsOrDefault e "Failed to get user information") }

/-- The `AuthParameters` map built for `REFRESH_TOKEN_AUTH` (auth-service.js
lines 245-251): the source populates only `REFRESH_TOKEN`; no `SECRET_HASH`
key is ever added on this path. -/
structure RefreshAuthParameters where
  REFRESH_TOKEN : String
  SECRET_HASH : Option String
deriving Repr, DecidableEq

structure RefreshParams where
  AuthFlow : String
  ClientId : String
  AuthParameters : RefreshAuthParameters
deriving Repr, DecidableEq

def refreshTokenParams (cfg : ClientConfig) (refreshTok : String) : RefreshParams :=
  { AuthFlow := "REFRESH_TOKEN_AUTH"
    ClientId := cfg.ClientId
    AuthParameters := { REFRESH_TOKEN := refreshTok, SECRET_HASH := none } }

structure RefreshResult where
  success : Bool
  accessToken : Option String
  idToken : Option String
  expiresIn : Option Nat
  error : Option String
deriving Repr, DecidableEq

def refreshToken (cfg : ClientConfig) (refreshTok : String)
    (initiateAuth : RefreshParams → Except String InitiateAuthResponse) : RefreshResult :=
  match initiateAuth (refreshTokenParams cfg refreshTok) with
  | .ok r =>
      match r.AuthenticationResult with
      | some ar =>
          { success := true, accessToken := some ar.AccessToken, idToken := some ar.IdToken,
            expiresIn := some ar.ExpiresIn, error := none }
      | none =>
          { success := false, accessToken := none, idToken := none, expiresIn := none,
            error := some "Token refresh failed" }
  | .error e =>
      { success := false, accessToken := none, idToken := none, expiresIn := none,
        error := some (jsOrDefault e "Token refresh failed") }

structure VerifyTokenResult where
  success : Bool
  user : Option CognitoUser
  error : Option String
deriving Repr, DecidableEq

/-- verifyToken (auth-service.js lines 282-300) probes getUser with the
token; every SDK error is caught and mapped to a failure envelope. -/
def verifyToken (getUser : String → Except String CognitoUser) (token : String) :
    VerifyTokenResult :=
  match getUser token with
  | .ok u => { success := true, user := some u, error := none }
  | .error e =>
      { success := false, user := none,
        error := some (jsOrDefault e "Token verification failed") }

/-! ### Bearer Token Middleware (authenticateToken / optionalAuth)

```js
const authHeader = req.headers['authorization'];
const token = authHeader && authHeader.split(' ')[1]; // Bearer TOKEN
if (!token) { ... }
```
JS `split(' ')` splits on every single space character; index 1 may be
undefined.  `authHeader` being undefined or the empty string is falsy, and
so is an empty second component, all three leaving `token` falsy. -/

def splitOnSpaceAux : List Char → List Char → List (List Char)
  | [], acc => [acc.reverse]
  | ch :: rest, acc =>
      if ch = ' ' then acc.reverse :: splitOnSpaceAux rest []
      else splitOnSpaceAux rest (ch :: acc)

/-- JS String.prototype.split(' '). -/
def jsSplitSpace (s : String) : List String :=
  (splitOnSpaceAux s.data []).map String.mk

/-- The token as both middleware variants compute it: the second
space-separated component of the Authorization header, with every falsy
outcome (absent header, empty header, no second component, empty second
component) collapsed to `none`. -/
def extractToken (authHeader : Option String) : Option String :=
  match authHeader with
  | none => none
  | some h =>
      if h = "" then none
      else
        match (jsSplitSpace h).get? 1 with
        | none => none
        | some t => if t = "" then none else some t

/-- Observable effect of one middleware run: the response status and body
if the request was rejected, what was attached to the request object, and
how many times next() ran. -/
structure MwResult where
  status : Option Nat
  errorBody : Option String
  reqUser : Option CognitoUser
  reqAccessToken : Option String
  nextCount : Nat
deriving Repr, DecidableEq

/-- Strict variant (authenticateToken).  The surrounding try/catch's 500
branch guards against exceptions raised inside the middleware body; the
embedded composition with verifyToken cannot raise, since verifyToken
returns a result envelope on every oracle outcome. -/
def authenticateToken (authHeader : Option String)
    (getUser : String → Except String CognitoUser) : MwResult :=
  match extractToken authHeader with
  | none =>
      { status := some 401, errorBody := some "Access token required",
        reqUser := none, reqAccessToken := none, nextCount := 0 }
  | some token =>
      let result := verifyToken getUser token
      if result.success then
        { status := none, errorBody := none, reqUser := result.user,
          reqAccessToken := some token, nextCount := 1 }
      else
        { status := some 403, errorBody := some (jsOrOpt result.error "Invalid token"),
          reqUser := none, reqAccessToken := none, nextCount := 0 }

/-- Permissive variant (optionalAuth): next() runs on every path. -/
def optionalAuth (authHeader : Option String)
    (getUser : String → Except String CognitoUser) : MwResult :=
  match extractToken authHeader with
  | none =>
      { status := none, errorBody := none, reqUser := none,
        reqAccessToken := none, nextCount := 1 }
  | some token =>
      let result := verifyToken getUser token
      if result.success then
        { status := none, errorBody := none, reqUser := result.user,
          reqAccessToken := some token, nextCount := 1 }
      else
        { status := none, errorBody := none, reqUser := none,
          reqAccessToken := none, nextCount := 1 }

/-! ### OIDC Discovery & Client Singleton (src/utils/cognito-config.js 55-101)

```js
let oidcClient = null;
async function initializeOIDCClient() {
  if (oidcClient) { return oidcClient; }
  ...
  const issuer = await Issuer.discover(cognitoConfig.IssuerUrl);   // suspension point
  oidcClient = new issuer.Client({...});
  return oidcClient;
}
async function getOIDCClient() {
  if (!oidcClient) { return await initializeOIDCClient(); }
  return oidcClient;
}
```

Node's event loop runs the code between awaits atomically, so one call to
getOIDCClient decomposes into two atomic steps:
  - step `start`: both null-checks run in the same synchronous segment; if
    the cached client exists the caller finishes with it, otherwise the
    caller issues an Issuer.discover network call and suspends;
  - step `waiting`: discovery resolves, the caller constructs the client,
    stores it in the module-level variable and finishes.
The model below interleaves two such callers under an explicit schedule
and counts Issuer.discover calls. -/

inductive CallerPC
  | start
  | waiting
  | done
deriving Repr, DecidableEq

structure OIDCState where
  oidcClient : Option Nat
  discoverCalls : Nat
  pc1 : CallerPC
  pc2 : CallerPC
deriving Repr, DecidableEq

def setPC (s : OIDCState) (first : Bool) (pc : CallerPC) : OIDCState :=
  if first then { s with pc1 := pc } else { s with pc2 := pc }

def oidcStep (s : OIDCState) (first : Bool) : OIDCState :=
  match (if first then s.pc1 else s.pc2) with
  | .start =>
      match s.oidcClient with
      | some _ => setPC s first .done
      | none => { setPC s first .waiting with discoverCalls := s.discoverCalls + 1 }
  | .waiting => { setPC s first .done with oidcClient := some (if first then 1 else 2) }
  | .done => s

def oidcInit : OIDCState :=
  { oidcClient := none, discoverCalls := 0, pc1 := .start, pc2 := .start }

/-- Run two first-callers of getOIDCClient under a schedule: each entry
says which caller takes its next atomic step. -/
def oidcRun (sched : List Bool) : OIDCState := sched.foldl oidcStep oidcInit

/-! ### Redirect Flow Handler (app GET /callback)

The express route awaits client.callback (which validates state/nonce and
exchanges the code), then client.userinfo, then writes userInfo and the
token set into the session; any thrown error lands in the catch, which
redirects to a fixed login URL. -/

structure SessionTokens where
  accessToken : String
  idToken : String
  refreshToken : String
deriving Repr, DecidableEq

structure Session where
  nonce : Option String
  state : Option String
  userInfo : Option (List (String × String))
  tokens : Option SessionTokens
deriving Repr, DecidableEq

structure CallbackParams where
  state : Option String
  code : Option String
deriving Repr, DecidableEq

/-- The token set resolved by the code exchange; `nonce` is the nonce
claim carried inside the ID token. -/
structure TokenSet where
  access_token : String
  id_token : String
  refresh_token : String
  nonce : Option String
deriving Repr, DecidableEq

/-- Modelled from the spec: the state/nonce validation that the
openid-client library performs inside `client.callback` is not part of
src/ (the route only passes `{ nonce, state }` checks to the library).
Per the spec, validation compares the callback's `state` and the ID
token's `nonce` against the values stored in the session at redirect
time, and a mismatch rejects (throws) instead of producing a token set;
with matching values the result is the code exchange's outcome. -/
def clientCallback (expectedNonce expectedState : Option String)
    (params : CallbackParams) (exchange : Except String TokenSet) :
    Except String TokenSet :=
  if params.state ≠ expectedState then
    .error "state mismatch, expected another value"
  else
    match exchange with
    | .error e => .error e
    | .ok ts =>
        if ts.nonce ≠ expectedNonce then .error "nonce mismatch, expected another value"
        else .ok ts

structure CallbackOutcome where
  session : Session
  redirect : String
deriving Repr, DecidableEq

/-- The GET /callback route body, as a function of the session, the
callback parameters, an oracle for the code exchange and an oracle for
the userinfo fetch. -/
def callbackRoute (oidcClientReady : Bool) (session : Session)
    (params : CallbackParams) (exchange : Except String TokenSet)
    (userinfo : String → Except String (List (String × String))) : CallbackOutcome :=
  if !oidcClientReady then { session := session, redirect := "/login" }
  else
    match clientCallback session.nonce session.state params exchange with
    | .error _ => { session := session, redirect := "/login?error=authentication_failed" }
    | .ok ts =>
        match userinfo ts.access_token with
        | .error _ => { session := session, redirect := "/login?error=authentication_failed" }
        | .ok ui =>
            { session :=
                { session with
                  userInfo := some ui
                  tokens := some
                    { accessToken := ts.access_token, idToken := ts.id_token,
                      refreshToken := ts.refresh_token } }
              redirect := "/" }

/-! ### Supporting lemmas -/

theorem sha256_length (m : List Nat) : (sha256 m).length = 32 := by
  simp [sha256, sha256Words, wordsToBytes, bytes4]

theorem hmacSha256_ne_nil (k m : List Nat) : hmacSha256 k m ≠ [] := by
  intro hnil
  have h32 : (hmacSha256 k m).length = 32 := by
    unfold hmacSha256
    exact sha256_length _
  rw [hnil] at h32
  simp at h32

theorem b64Chunks_ne_nil : ∀ bs : List Nat, bs ≠ [] → b64Chunks bs ≠ []
  | [], h => absurd rfl h
  | [_], _ => by simp [b64Chunks]
  | [_, _], _ => by simp [b64Chunks]
  | _ :: _ :: _ :: _, _ => by simp [b64Chunks]

theorem base64Encode_ne_empty (bs : List Nat) (h : bs ≠ []) : base64Encode bs ≠ "" := by
  intro hc
  apply b64Chunks_ne_nil bs h
  have hdata : (base64Encode bs).data = ("" : String).data := by rw [hc]
  simpa [base64Encode] using hdata

theorem calculateSecretHash_of_secret (cfg : ClientConfig) (u s : String)
    (h : cfg.ClientSecret = some s) (hs : s ≠ "") :
    calculateSecretHash cfg u =
      some (base64Encode (hmacSha256 (strBytes s) (strBytes (u ++ cfg.ClientId)))) := by
  unfold calculateSecretHash
  rw [h]
  simp [hs]

theorem calculateSecretHash_ne_some_empty (cfg : ClientConfig) (u : String) :
    calculateSecretHash cfg u ≠ some "" := by
  unfold calculateSecretHash
  cases hsec : cfg.ClientSecret with
  | none => simp
  | some s =>
      by_cases hs : s = ""
      · simp [hs]
      · simp only [hs, if_false]
        intro hc
        exact base64Encode_ne_empty _ (hmacSha256_ne_nil _ _) (Option.some_injective _ hc)

theorem jsTruthy_true_iff (v : Option String) :
    jsTruthy v = true ↔ ∃ s, v = some s ∧ s ≠ "" := by
  cases v with
  | none => simp [jsTruthy]
  | some s => simp [jsTruthy]

theorem addIfTruthy_of_ne_empty (d : String) (hd : d ≠ "") :
    addIfTruthy (some d) = some d := by
  simp [addIfTruthy, hd]

/-- Central helper for the Secret-Hash invariant: with a truthy secret the
`if (secretHash)` guard keeps the computed hash; with a falsy secret the
calculator returns null and the field stays absent. -/
theorem secretHashField (cfg : ClientConfig) (u : String) :
    (jsTruthy cfg.ClientSecret = true →
      addIfTruthy (calculateSecretHash cfg u) = calculateSecretHash cfg u ∧
      (calculateSecretHash cfg u).isSome = true) ∧
    (jsTruthy cfg.ClientSecret = false →
      addIfTruthy (calculateSecretHash cfg u) = none) := by
  constructor
  · intro ht
    obtain ⟨s, hsec, hs⟩ := (jsTruthy_true_iff _).1 ht
    have hcalc := calculateSecretHash_of_secret cfg u s hsec hs
    have hne : base64Encode (hmacSha256 (strBytes s) (strBytes (u ++ cfg.ClientId))) ≠ "" :=
      base64Encode_ne_empty _ (hmacSha256_ne_nil _ _)
    rw [hcalc]
    exact ⟨addIfTruthy_of_ne_empty _ hne, rfl⟩
  · intro hf
    unfold calculateSecretHash
    cases hsec : cfg.ClientSecret with
    | none => simp [addIfTruthy]
    | some s =>
        rw [hsec] at hf
        simp only [jsTruthy, bne_iff_ne, ne_eq] at hf
        have hs : s = "" := by
          by_contra hne
          simp [hne] at hf
        simp [hs, addIfTruthy]

/-! ### Concrete fixtures used by witnesses and counterexamples -/

def cfgWithSecret : ClientConfig :=
  { UserPoolId := "us-east-1_demo"
    ClientId := "client-id-123"
    ClientSecret := some "demo-secret"
    Region := "us-east-1"
    IssuerUrl := "https://cognito-idp.us-east-1.amazonaws.com/us-east-1_demo"
    RedirectUri := "https://app.example/callback"
    ResponseTypes := ["code"] }

def cfgNoSecret : ClientConfig :=
  { cfgWithSecret with ClientSecret := none }

def demoUser : CognitoUser :=
  { Username := "alice", UserAttributes := [("sub", "abc-123"), ("email", "alice@example.com")] }

def sessionDemo : Session :=
  { nonce := some "nonce-1", state := some "state-1", userInfo := none, tokens := none }

/-! ### Claims -/

/-- C1: the spec claims N concurrent first-callers to the discovery
singleton trigger exactly one Issuer.discover call, via a memoized
promise under a construction guard.  The source instead memoizes only the
finished client behind a plain null check, so the interleaving in which
both callers run their initial synchronous segment before either
discovery resolves issues two Issuer.discover calls; a fully sequential
schedule issues one, confirming the model.  The schedule
[true, false, true, false] is: caller 1 checks-and-starts discovery,
caller 2 checks-and-starts discovery, caller 1 resolves, caller 2
resolves. -/
theorem C1_discovery_race :
    (oidcRun [true, false, true, false]).discoverCalls = 2 ∧
    (oidcRun [true, false, true, false]).pc1 = CallerPC.done ∧
    (oidcRun [true, false, true, false]).pc2 = CallerPC.done ∧
    (oidcRun [true, true, false]).discoverCalls = 1 := by
  exact ⟨rfl, rfl, rfl, rfl⟩

/-- C2: every adapter operation that references a username (signUp,
confirmSignUp, resendConfirmationCode, signIn) includes the computed
Secret Hash in its outgoing parameters when the client secret is
configured (truthy), and includes no Secret Hash field when it is not. -/
theorem C2_secret_hash_requests (cfg : ClientConfig) (u email pw code : String) :
    (jsTruthy cfg.ClientSecret = true →
      (signUpParams cfg u email pw).SecretHash = calculateSecretHash cfg u ∧
      ((signUpParams cfg u email pw).SecretHash).isSome = true ∧
      (confirmSignUpParams cfg u code).SecretHash = calculateSecretHash cfg u ∧
      ((confirmSignUpParams cfg u code).SecretHash).isSome = true ∧
      (resendConfirmationCodeParams cfg u).SecretHash = calculateSecretHash cfg u ∧
      ((resendConfirmationCodeParams cfg u).SecretHash).isSome = true ∧
      (signInParams cfg u pw).AuthParameters.SECRET_HASH = calculateSecretHash cfg u ∧
      ((signInParams cfg u pw).AuthParameters.SECRET_HASH).isSome = true) ∧
    (jsTruthy cfg.ClientSecret = false →
      (signUpParams cfg u email pw).SecretHash = none ∧
      (confirmSignUpParams cfg u code).SecretHash = none ∧
      (resendConfirmationCodeParams cfg u).SecretHash = none ∧
      (signInParams cfg u pw).AuthParameters.SECRET_HASH = none) := by
  constructor
  · intro ht
    obtain ⟨hkeep, hsome⟩ := (secretHashField cfg u).1 ht
    refine ⟨?_, ?_, ?_, ?_, ?_, ?_, ?_, ?_⟩ <;>
      simp [signUpParams, confirmSignUpParams, resendConfirmationCodeParams, signInParams,
            hkeep, hsome]
  · intro hf
    have hnone := (secretHashField cfg u).2 hf
    refine ⟨?_, ?_, ?_, ?_⟩ <;>
      simp [signUpParams, confirmSignUpParams, resendConfirmationCodeParams, signInParams, hnone]

/-- C2 witness: on a config with secret "demo-secret" the sign-up request
carries a Secret Hash, on a config without a secret it carries none. -/
theorem C2_secret_hash_requests_witness :
    (jsTruthy cfgWithSecret.ClientSecret = true ∧
      ((signUpParams cfgWithSecret "alice" "alice@example.com" "pw123").SecretHash).isSome = true) ∧
    (jsTruthy cfgNoSecret.ClientSecret = false ∧
      (signUpParams cfgNoSecret "alice" "alice@example.com" "pw123").SecretHash = none) :=
  ⟨⟨by decide,
    ((C2_secret_hash_requests cfgWithSecret "alice" "alice@example.com" "pw123" "000000").1
      (by decide)).2.1⟩,
   ⟨by decide,
    ((C2_secret_hash_requests cfgNoSecret "alice" "alice@example.com" "pw123" "000000").2
      (by decide)).1⟩⟩

/-- C3: the Secret Hash Calculator returns the base64-encoded HMAC-SHA256
of username + clientId keyed by the configured secret; it returns null
when no secret is configured and never returns an empty string; and it is
a pure function of (username, client id, secret) alone. -/
theorem C3_secret_hash_calculator (cfg cfg₂ : ClientConfig) (u u₂ s : String) :
    (cfg.ClientSecret = some s → s ≠ "" →
      calculateSecretHash cfg u =
        some (base64Encode (hmacSha256 (strBytes s) (strBytes (u ++ cfg.ClientId))))) ∧
    (cfg.ClientSecret = none → calculateSecretHash cfg u = none) ∧
    calculateSecretHash cfg u ≠ some "" ∧
    (cfg.ClientSecret = cfg₂.ClientSecret → cfg.ClientId = cfg₂.ClientId → u = u₂ →
      calculateSecretHash cfg u = calculateSecretHash cfg₂ u₂) := by
  refine ⟨fun h hs => calculateSecretHash_of_secret cfg u s h hs, ?_, ?_, ?_⟩
  · intro h
    unfold calculateSecretHash
    rw [h]
  · exact calculateSecretHash_ne_some_empty cfg u
  · intro h1 h2 h3
    unfold calculateSecretHash
    rw [h1, h2, h3]

/-- C3 witness: concrete digest shape on the secret-carrying config, null
on the secretless one. -/
theorem C3_secret_hash_calculator_witness :
    calculateSecretHash cfgWithSecret "alice" =
      some (base64Encode (hmacSha256 (strBytes "demo-secret")
        (strBytes ("alice" ++ cfgWithSecret.ClientId)))) ∧
    calculateSecretHash cfgNoSecret "alice" = none :=
  ⟨(C3_secret_hash_calculator cfgWithSecret cfgWithSecret "alice" "alice" "demo-secret").1
      rfl (by decide),
   (C3_secret_hash_calculator cfgNoSecret cfgNoSecret "alice" "alice" "demo-secret").2.1 rfl⟩

/-- C4 counterexample: the claim says an adapter/network error yields a
server-error rejection distinct from a credential failure.  In the code
every getUser error — network errors included — is captured inside
verifyToken as a failure envelope, so the strict middleware answers 403,
exactly the status of a credential failure and not a distinct 500. -/
theorem C4_network_error_counterexample :
    (authenticateToken (some "Bearer sometoken")
        (fun _ => Except.error "connect ETIMEDOUT idp.example:443")).status = some 403 ∧
    (authenticateToken (some "Bearer sometoken")
        (fun _ => Except.error "connect ETIMEDOUT idp.example:443")).status =
      (authenticateToken (some "Bearer sometoken")
        (fun _ => Except.error "Invalid Access Token")).status ∧
    (authenticateToken (some "Bearer sometoken")
        (fun _ => Except.error "connect ETIMEDOUT idp.example:443")).status ≠ some 500 := by
  refine ⟨rfl, rfl, ?_⟩
  decide

/-- C4 (amended): strict middleware — a missing token yields 401 with no
Identity attached and the handler not invoked; any getUser error, whether
a failed verification or an adapter/network error, yields 403 (both are
captured inside verifyToken; the middleware's 500 branch is reserved for
exceptions thrown in its own body); a verified token attaches the user
and the raw token and invokes the handler exactly once. -/
theorem C4_strict_middleware (h : Option String)
    (getUser : String → Except String CognitoUser) :
    (extractToken h = none →
      authenticateToken h getUser =
        { status := some 401, errorBody := some "Access token required",
          reqUser := none, reqAccessToken := none, nextCount := 0 }) ∧
    (∀ t m, extractToken h = some t → getUser t = Except.error m →
      (authenticateToken h getUser).status = some 403 ∧
      (authenticateToken h getUser).reqUser = none ∧
      (authenticateToken h getUser).reqAccessToken = none ∧
      (authenticateToken h getUser).nextCount = 0) ∧
    (∀ t u, extractToken h = some t → getUser t = Except.ok u →
      authenticateToken h getUser =
        { status := none, errorBody := none, reqUser := some u,
          reqAccessToken := some t, nextCount := 1 }) := by
  refine ⟨?_, ?_, ?_⟩
  · intro hE
    simp [authenticateToken, hE]
  · intro t m hE hG
    simp [authenticateToken, hE, verifyToken, hG]
  · intro t u hE hG
    simp [authenticateToken, hE, verifyToken, hG]

/-- C4 witness: the three amended branches at concrete inputs. -/
theorem C4_strict_middleware_witness :
    authenticateToken none (fun _ => Except.error "never called") =
      { status := some 401, errorBody := some "Access token required",
        reqUser := none, reqAccessToken := none, nextCount := 0 } ∧
    (authenticateToken (some "Bearer tok") (fun _ => Except.error "Invalid Access Token")).status
      = some 403 ∧
    authenticateToken (some "Bearer tok") (fun _ => Except.ok demoUser) =
      { status := none, errorBody := none, reqUser := some demoUser,
        reqAccessToken := some "tok", nextCount := 1 } :=
  ⟨(C4_strict_middleware none _).1 rfl,
   ((C4_strict_middleware (some "Bearer tok") _).2.1 "tok" "Invalid Access Token"
      (by decide) rfl).1,
   (C4_strict_middleware (some "Bearer tok") _).2.2 "tok" demoUser (by decide) rfl⟩

/-- C5: permissive middleware — the handler is always invoked exactly
once, the request is never rejected, and an Identity is attached exactly
when a token was present and its verification succeeded. -/
theorem C5_permissive_middleware (h : Option String)
    (getUser : String → Except String CognitoUser) :
    (optionalAuth h getUser).nextCount = 1 ∧
    (optionalAuth h getUser).status = none ∧
    (optionalAuth h getUser).errorBody = none ∧
    ((optionalAuth h getUser).reqUser.isSome = true ↔
      ∃ t u, extractToken h = some t ∧ getUser t = Except.ok u) := by
  cases hE : extractToken h with
  | none => simp [optionalAuth, hE]
  | some t =>
      cases hG : getUser t with
      | ok u =>
          refine ⟨?_, ?_, ?_, ?_⟩ <;> simp [optionalAuth, hE, verifyToken, hG]
      | error e =>
          refine ⟨?_, ?_, ?_, ?_⟩ <;> simp [optionalAuth, hE, verifyToken, hG]

/-- C5 witness: with an unverifiable token the permissive middleware still
invokes the handler once; with a verifiable one it attaches the user. -/
theorem C5_permissive_middleware_witness :
    (optionalAuth (some "Bearer tok") (fun _ => Except.error "Invalid Access Token")).nextCount
      = 1 ∧
    ((optionalAuth (some "Bearer tok") (fun _ => Except.ok demoUser)).reqUser.isSome = true ↔
      ∃ t u, extractToken (some "Bearer tok") = some t ∧
        (fun _ => Except.ok demoUser : String → Except String CognitoUser) t = Except.ok u) :=
  ⟨(C5_permissive_middleware (some "Bearer tok") _).1,
   (C5_permissive_middleware (some "Bearer tok") _).2.2.2⟩

/-- C6: a callback whose state (or whose ID-token nonce) does not match
the values stored in the session hard-fails: the session is returned
unchanged (no token set, no user info written) and the browser is sent to
the fixed opaque login URL; a code-exchange error likewise produces the
same fixed redirect whatever the raw error text was, so IdP error text
never reaches the browser. -/
theorem C6_state_nonce_mismatch (session : Session) (params : CallbackParams)
    (exchange : Except String TokenSet)
    (userinfo : String → Except String (List (String × String))) :
    (params.state ≠ session.state →
      callbackRoute true session params exchange userinfo =
        { session := session, redirect := "/login?error=authentication_failed" }) ∧
    (∀ ts, exchange = Except.ok ts → ts.nonce ≠ session.nonce →
      callbackRoute true session params exchange userinfo =
        { session := session, redirect := "/login?error=authentication_failed" }) ∧
    (∀ e, callbackRoute true session params (Except.error e) userinfo =
      { session := session, redirect := "/login?error=authentication_failed" }) := by
  refine ⟨?_, ?_, ?_⟩
  · intro hmis
    simp [callbackRoute, clientCallback, hmis]
  · intro ts hex hnonce
    by_cases hst : params.state = session.state
    · simp [callbackRoute, clientCallback, hst, hex, hnonce]
    · simp [callbackRoute, clientCallback, hst]
  · intro e
    by_cases hst : params.state = session.state
    · simp [callbackRoute, clientCallback, hst]
    · simp [callbackRoute, clientCallback, hst]

/-- C6 witness: a concrete tampered state leaves the demo session
untouched and redirects to the opaque login URL. -/
theorem C6_state_nonce_mismatch_witness :
    callbackRoute true sessionDemo { state := some "tampered", code := some "authcode" }
      (Except.ok { access_token := "at", id_token := "it", refresh_token := "rt",
                   nonce := some "nonce-1" })
      (fun _ => Except.ok [("sub", "abc-123")]) =
      { session := sessionDemo, redirect := "/login?error=authentication_failed" } :=
  (C6_state_nonce_mismatch sessionDemo _ _ _).1 (by decide)

/-- C7 counterexample: the claim says every sign-in failure carries a
generic authentication-failed message and never echoes IdP-internal error
detail.  When the IdP call throws (the wrong-password path), the catch
returns error.message verbatim: the IdP's own text, not a generic one. -/
theorem C7_echoes_idp_error :
    (signIn cfgWithSecret "alice" "wrong-password"
        (fun _ => Except.error "Incorrect username or password.")).success = false ∧
    (signIn cfgWithSecret "alice" "wrong-password"
        (fun _ => Except.error "Incorrect username or password.")).error =
      some "Incorrect username or password." ∧
    (signIn cfgWithSecret "alice" "wrong-password"
        (fun _ => Except.error "Incorrect username or password.")).error ≠
      some "Authentication failed" ∧
    (signIn cfgWithSecret "alice" "wrong-password"
        (fun _ => Except.error "Incorrect username or password.")).error ≠
      some "Sign in failed" ∧
    (signIn cfgWithSecret "alice" "wrong-password"
        (fun _ => Except.error "Incorrect username or password.")).accessToken = none := by
  refine ⟨rfl, by decide, by decide, by decide, rfl⟩

/-- C7 (amended): on success sign-in returns access, id and refresh
tokens plus an expiry; when the IdP resolves without an authentication
result it fails with the generic message and no tokens; when the IdP
throws, it fails with no tokens but the failure message is the IdP's own
error text (falling back to a generic one only when that text is empty). -/
theorem C7_sign_in (cfg : ClientConfig) (u p m : String) (ar : AuthenticationResult) :
    signIn cfg u p (fun _ => Except.ok { AuthenticationResult := some ar }) =
      { success := true, accessToken := some ar.AccessToken, idToken := some ar.IdToken,
        refreshToken := some ar.RefreshToken, expiresIn := some ar.ExpiresIn, error := none } ∧
    signIn cfg u p (fun _ => Except.ok { AuthenticationResult := none }) =
      { success := false, accessToken := none, idToken := none, refreshToken := none,
        expiresIn := none, error := some "Authentication failed" } ∧
    signIn cfg u p (fun _ => Except.error m) =
      { success := false, accessToken := none, idToken := none, refreshToken := none,
        expiresIn := none, error := some (jsOrDefault m "Sign in failed") } :=
  ⟨rfl, rfl, rfl⟩

set_option maxRecDepth 200000 in
/-- The crypto embedding is the real algorithm: on key "key" and message
"user" ++ "client" the calculator produces the reference HMAC-SHA256
base64 digest (cross-checked against an independent implementation). -/
theorem calculateSecretHash_test_vector :
    calculateSecretHash
      { UserPoolId := "pool", ClientId := "client", ClientSecret := some "key",
        Region := "r", IssuerUrl := "i", RedirectUri := "u", ResponseTypes := ["code"] }
      "user" = some "YwFvZ4loYJ8AoBhNXIih/Y38DF2IP6/Lq768LwhOvJ0=" := by
  decide

/-- C8: every adapter operation returns a result envelope on every oracle
outcome — totality of each embedded operation is the no-uncaught-exception
property — and every thrown SDK error is mapped to a success:false
envelope carrying the error message (or the operation's default when the
message is empty); in particular verifyToken maps every error to a
verification-failure result. -/
theorem C8_result_envelopes (cfg : ClientConfig)
    (u email pw code tok m details : String)
    (su : SignUpResponse) (cu : CognitoUser) (ar : AuthenticationResult) :
    (signUp cfg u email pw (fun _ => Except.ok su)).success = true ∧
    signUp cfg u email pw (fun _ => Except.error m) =
      { success := false, userSub := none, codeDeliveryDetails := none,
        error := some (jsOrDefault m "Sign up failed") } ∧
    (confirmSignUp cfg u code (fun _ => Except.ok ())).success = true ∧
    confirmSignUp cfg u code (fun _ => Except.error m) =
      { success := false, message := none,
        error := some (jsOrDefault m "Email verification failed") } ∧
    (resendConfirmationCode cfg u (fun _ => Except.ok details)).success = true ∧
    resendConfirmationCode cfg u (fun _ => Except.error m) =
      { success := false, codeDeliveryDetails := none,
        error := some (jsOrDefault m "Failed to resend verification code") } ∧
    (signIn cfg u pw (fun _ => Except.ok { AuthenticationResult := some ar })).success = true ∧
    (signIn cfg u pw (fun _ => Except.error m)).success = false ∧
    (signIn cfg u pw (fun _ => Except.error m)).error =
      some (jsOrDefault m "Sign in failed") ∧
    (signOut tok (fun _ => Except.ok ())).success = true ∧
    signOut tok (fun _ => Except.error m) =
      { success := false, message := none,
        error := some (jsOrDefault m "Sign out failed") } ∧
    (getUserInfo tok (fun _ => Except.ok cu)).success = true ∧
    getUserInfo tok (fun _ => Except.error m) =
      { success := false, user := none,
        error := some (jsOrDefault m "Failed to get user information") } ∧
    (refreshToken cfg tok (fun _ => Except.ok { AuthenticationResult := some ar })).success
      = true ∧
    refreshToken cfg tok (fun _ => Except.error m) =
      { success := false, accessToken := none, idToken := none, expiresIn := none,
        error := some (jsOrDefault m "Token refresh failed") } ∧
    verifyToken (fun _ => Except.ok cu) tok =
      { success := true, user := some cu, error := none } ∧
    verifyToken (fun _ => Except.error m) tok =
      { success := false, user := none,
        error := some (jsOrDefault m "Token verification failed") } :=
  ⟨rfl, rfl, rfl, rfl, rfl, rfl, rfl, rfl, rfl, rfl, rfl, rfl, rfl, rfl, rfl, rfl, rfl⟩

/-- C8 witness: an expired-token error at verifyToken becomes a failure
envelope, never an exception. -/
theorem C8_result_envelopes_witness :
    verifyToken (fun _ => Except.error "Access Token has expired") "tok" =
      { success := false, user := none,
        error := some (jsOrDefault "Access Token has expired" "Token verification failed") } :=
  (C8_result_envelopes cfgWithSecret "u" "e" "p" "c" "tok" "Access Token has expired" "d"
    ⟨"sub", "det"⟩ demoUser ⟨"at", "it", "rt", 3600⟩).2.2.2.2.2.2.2.2.2.2.2.2.2.2.2.2

/-- C9: the spec claims the refresh operation reuses the Secret Hash rule,
carrying a computed Secret Hash whenever a secret is configured.  The
source builds the REFRESH_TOKEN_AUTH parameters with only REFRESH_TOKEN
and never adds SECRET_HASH — its own comment acknowledges the need and
the code does not implement it — so even on a secret-configured client
the refresh request carries none. -/
theorem C9_refresh_missing_secret_hash :
    jsTruthy cfgWithSecret.ClientSecret = true ∧
    (refreshTokenParams cfgWithSecret "some-refresh-token").AuthParameters.SECRET_HASH = none ∧
    (refreshTokenParams cfgWithSecret "some-refresh-token").AuthParameters.REFRESH_TOKEN =
      "some-refresh-token" ∧
    (refreshTokenParams cfgWithSecret "some-refresh-token").AuthFlow = "REFRESH_TOKEN_AUTH" := by
  refine ⟨by decide, rfl, rfl, rfl⟩

/-- C10: both middleware variants take the second space-separated
component of the Authorization header without inspecting the scheme: a
"Basic xyz" header is handled exactly like "Bearer xyz" (its second
component "xyz" goes to verification), and a header with no second
component such as plain "Bearer" is a missing token — 401 from the strict
variant, pass-through with no Identity from the permissive one. -/
theorem C10_token_extraction :
    extractToken (some "Basic xyz") = some "xyz" ∧
    (∀ getUser, authenticateToken (some "Basic xyz") getUser =
      authenticateToken (some "Bearer xyz") getUser) ∧
    extractToken (some "Bearer") = none ∧
    (∀ getUser, authenticateToken (some "Bearer") getUser = authenticateToken none getUser) ∧
    (∀ getUser : String → Except String CognitoUser,
      (authenticateToken (some "Bearer") getUser).status = some 401 ∧
      (authenticateToken (some "Bearer") getUser).reqUser = none ∧
      (authenticateToken (some "Bearer") getUser).nextCount = 0) ∧
    (∀ getUser, optionalAuth (some "Bearer") getUser = optionalAuth none getUser) ∧
    (∀ getUser : String → Except String CognitoUser,
      (optionalAuth (some "Bearer") getUser).nextCount = 1 ∧
      (optionalAuth (some "Bearer") getUser).reqUser = none) := by
  have hBasic : extractToken (some "Basic xyz") = some "xyz" := by decide
  have hBearerTok : extractToken (some "Bearer xyz") = some "xyz" := by decide
  have hBare : extractToken (some "Bearer") = none := by decide
  have hNone : extractToken none = none := rfl
  refine ⟨hBasic, ?_, hBare, ?_, ?_, ?_, ?_⟩
  · intro getUser
    simp [authenticateToken, hBasic, hBearerTok]
  · intro getUser
    simp [authenticateToken, hBare, hNone]
  · intro getUser
    simp [authenticateToken, hBare]
  · intro getUser
    simp [optionalAuth, hBare, hNone]
  · intro getUser
    simp [optionalAuth, hBare]

/-- C10 witness: a Basic-scheme header is verified like a Bearer one at a
concrete oracle, and a bare "Bearer" header is rejected as missing. -/
theorem C10_token_extraction_witness :
    authenticateToken (some "Basic xyz") (fun _ => Except.ok demoUser) =
      authenticateToken (some "Bearer xyz") (fun _ => Except.ok demoUser) ∧
    (authenticateToken (some "Bearer") (fun _ => Except.ok demoUser)).status = some 401 :=
  ⟨C10_token_extraction.2.1 _, (C10_token_extraction.2.2.2.2.1 _).1⟩
